import Mathlib

/-!
Verification of the GenAssist intent-detection / workflow-materialization core
(`lambda/intent-detection/index.py`) against its specification.

The Python handler is embedded shallowly:
* text is a Lean `String` (character lists are used for the regex scans;
  all inputs of interest are ASCII, where `Char.toLower` agrees with
  Python's `str.lower`),
* the Bedrock model call is an environment parameter (`BedrockOutcome`):
  the call may raise, return unparsable text, or return a parsed JSON
  object (modelled as a record with optional fields, since a parsed object
  may be missing keys),
* the two DynamoDB tables are a `Store` value threaded through the handler,
* `uuid.uuid4()` and `datetime.utcnow().isoformat()` are environment
  parameters (`Env`),
* a Python `KeyError` from a missing dict key is an `Except.error`.
-/

namespace GenAssist

/-- ASCII character class `[A-Z]` of the regexes in `extract_entities`. -/
def isUpperAZ (c : Char) : Bool := 'A' ≤ c && c ≤ 'Z'

/-- ASCII character class `[a-z]`. -/
def isLowerAZ (c : Char) : Bool := 'a' ≤ c && c ≤ 'z'

/-- ASCII character class `\d`. -/
def isDigit09 (c : Char) : Bool := '0' ≤ c && c ≤ '9'

/-- Python `text.lower()` (ASCII fragment). -/
def lowerText (t : List Char) : List Char := t.map Char.toLower

/-- Attempt to match the regex `[A-Z][a-z]+ [A-Z][a-z]+` anchored at the head
of the list, returning the matched characters.  The greedy `[a-z]+` runs are
maximal runs: backtracking them can never help because `[a-z]` never matches
the mandatory following character (a space resp. nothing). -/
def matchNameAt : List Char → Option (List Char)
  | [] => none
  | c1 :: rest =>
    if isUpperAZ c1 then
      let p1 := rest.span isLowerAZ
      if p1.1.isEmpty then none
      else
        match p1.2 with
        | ' ' :: c2 :: rest2 =>
          if isUpperAZ c2 then
            let p2 := rest2.span isLowerAZ
            if p2.1.isEmpty then none
            else some (c1 :: p1.1 ++ ' ' :: c2 :: p2.1)
          else none
        | _ => none
    else none

/-- The optional fraction part `(?:\.\d{2})?` of the amount regex, appended
greedily to the integer digits. -/
def amountWithFraction (ds rest : List Char) : List Char :=
  match rest with
  | '.' :: d1 :: d2 :: _ =>
    if isDigit09 d1 && isDigit09 d2 then ds ++ ['.', d1, d2] else ds
  | _ => ds

/-- Attempt to match `\$?(\d+(?:\.\d{2})?)` anchored at the head of the list,
returning the capture group (the number without the `$`).  At a `$` the
regex only matches when a digit follows (otherwise `\$?` backtracks to empty
and `\d+` fails on the `$` itself). -/
def matchAmountAt : List Char → Option (List Char)
  | [] => none
  | c :: rest =>
    if c = '$' then
      match rest with
      | d :: _ =>
        if isDigit09 d then
          let p := rest.span isDigit09
          some (amountWithFraction p.1 p.2)
        else none
      | [] => none
    else if isDigit09 c then
      let p := (c :: rest).span isDigit09
      some (amountWithFraction p.1 p.2)
    else none

/-- First (leftmost) match of an anchored matcher: the semantics of
`re.findall(...)[0]`. -/
def findFirst (f : List Char → Option (List Char)) : List Char → Option (List Char)
  | [] => none
  | c :: rest =>
    match f (c :: rest) with
    | some m => some m
    | none => findFirst f rest

/-- Python substring membership `pat in l`. -/
def hasSub (pat : List Char) : List Char → Bool
  | [] => pat.isEmpty
  | c :: rest => pat.isPrefixOf (c :: rest) || hasSub pat rest

/-- The fixed role vocabulary of `extract_entities`. -/
def roles : List String :=
  ["developer", "engineer", "manager", "analyst", "designer", "intern"]

/-- Python `str.title()` restricted to a single lowercase word, which is the
only shape it is applied to (the entries of `roles`). -/
def titleCase (s : String) : String :=
  match s.toList with
  | [] => ""
  | c :: rest => String.mk (c.toUpper :: rest)

/-- The `role` heuristic: first role of the vocabulary that is a substring of
the lowercased text. -/
def findRole (text : List Char) : Option String :=
  roles.find? (fun r => hasSub r.toList (lowerText text))

/-- The heuristic of `extract_entities` for one requested entity type:
`some value` when the type has a heuristic and it matches, `none` otherwise
(unrecognized types are silently ignored). -/
def heurMatch (text : String) (ty : String) : Option String :=
  if ty = "employee_name" then
    (findFirst matchNameAt text.toList).map String.mk
  else if ty = "amount" then
    (findFirst matchAmountAt text.toList).map (fun m => "$" ++ String.mk m)
  else if ty = "role" then
    (findRole text.toList).map titleCase
  else none

/-- The dict entries contributed by one loop iteration of `extract_entities`. -/
def heurEntry (text ty : String) : List (String × String) :=
  match heurMatch text ty with
  | some v => [(ty, v)]
  | none => []

/-- `extract_entities(text, entity_types)`: the result dict as an ordered
association list (the requested type lists of the source contain no
duplicate keys, so insertion order is the loop order). -/
def extract_entities (text : String) (entity_types : List String) :
    List (String × String) :=
  entity_types.foldl (fun acc ty => acc ++ heurEntry text ty) []

/-- A classification result as it flows through the Python code: a parsed
JSON dict whose keys may be absent (`none` = missing key). -/
structure IntentData where
  intent : Option String
  entities : Option (List (String × String))
  confidence : Option ℚ
  domain : Option String
deriving DecidableEq

def hrKeywords : List String := ["onboard", "hire", "new employee", "join"]

def itKeywords : List String := ["ticket", "issue", "problem", "bug", "error"]

def financeKeywords : List String := ["expense", "reimburse", "receipt", "payment"]

def meetingKeywords : List String := ["meeting", "schedule", "calendar", "appointment"]

/-- Python `any(word in text_lower for word in kws)`. -/
def containsAny (kws : List String) (textLower : List Char) : Bool :=
  kws.any (fun w => hasSub w.toList textLower)

/-- `fallback_intent_detection(text)`.  All four dict keys are always
present. -/
def fallback_intent_detection (text : String) : IntentData :=
  let text_lower := lowerText text.toList
  if containsAny hrKeywords text_lower then
    { intent := some "HR_Onboarding"
      entities := some (extract_entities text ["employee_name", "role", "start_date"])
      confidence := some (4/5), domain := some "HR" }
  else if containsAny itKeywords text_lower then
    { intent := some "IT_Ticket"
      entities := some (extract_entities text ["issue_type", "priority", "description"])
      confidence := some (4/5), domain := some "IT" }
  else if containsAny financeKeywords text_lower then
    { intent := some "Finance_Expense"
      entities := some (extract_entities text ["amount", "category", "description"])
      confidence := some (4/5), domain := some "Finance" }
  else if containsAny meetingKeywords text_lower then
    { intent := some "Meeting_Schedule"
      entities := some (extract_entities text ["date", "time", "attendees", "subject"])
      confidence := some (4/5), domain := some "General" }
  else
    { intent := some "General_Query", entities := some []
      confidence := some (1/2), domain := some "General" }

/-- Outcome of the external Bedrock model call for one invocation. -/
inductive BedrockOutcome where
  | failure
  | unparsable
  | parsed (d : IntentData)
deriving DecidableEq

/-- `detect_intent_with_bedrock(text)`: on a successful call whose output
parses as JSON the parsed object is returned verbatim; on a JSON parse
failure or on any exception from the call, `fallback_intent_detection`. -/
def detect_intent_with_bedrock (outcome : BedrockOutcome) (text : String) :
    IntentData :=
  match outcome with
  | .parsed d => d
  | .unparsable => fallback_intent_detection text
  | .failure => fallback_intent_detection text

/-- Python `entities.get(key, default)`. -/
def getD (entities : List (String × String)) (key dflt : String) : String :=
  match entities.lookup key with
  | some v => v
  | none => dflt

/-- `get_workflow_title(intent, entities)`. -/
def get_workflow_title (intent : String) (entities : List (String × String)) :
    String :=
  if intent = "HR_Onboarding" then
    "Employee Onboarding - " ++ getD entities "employee_name" "New Employee"
  else if intent = "IT_Ticket" then
    "IT Support Ticket - " ++ getD entities "issue_type" "Technical Issue"
  else if intent = "Finance_Expense" then
    "Expense Report - " ++ getD entities "description" "Business Expense"
  else if intent = "Meeting_Schedule" then
    "Schedule Meeting - " ++ getD entities "subject" "Meeting"
  else
    "Workflow - " ++ intent

/-- `get_workflow_description(intent, entities)`. -/
def get_workflow_description (intent : String)
    (entities : List (String × String)) : String :=
  if intent = "HR_Onboarding" then
    "Setting up accounts, scheduling orientation, and preparing workspace for "
      ++ getD entities "role" "new role" ++ "."
  else if intent = "IT_Ticket" then
    "Investigating and resolving " ++ getD entities "description" "technical issue" ++ "."
  else if intent = "Finance_Expense" then
    "Processing expense report for " ++ getD entities "amount" "business expense" ++ "."
  else if intent = "Meeting_Schedule" then
    "Scheduling meeting and sending calendar invites."
  else
    "Processing workflow request."

/-- A workflow step. -/
structure Step where
  name : String
  status : String
deriving DecidableEq

/-- `get_workflow_steps(intent)`: the step-template lookup with its generic
two-step default. -/
def get_workflow_steps (intent : String) : List Step :=
  if intent = "HR_Onboarding" then
    [⟨"Create employee record", "pending"⟩, ⟨"Setup IT accounts", "pending"⟩,
     ⟨"Schedule orientation", "pending"⟩, ⟨"Prepare workspace", "pending"⟩,
     ⟨"Send welcome email", "pending"⟩]
  else if intent = "IT_Ticket" then
    [⟨"Ticket creation", "pending"⟩, ⟨"Issue assessment", "pending"⟩,
     ⟨"Assign technician", "pending"⟩, ⟨"Resolve issue", "pending"⟩]
  else if intent = "Finance_Expense" then
    [⟨"Expense validation", "pending"⟩, ⟨"Manager approval", "pending"⟩,
     ⟨"Finance review", "pending"⟩, ⟨"Payment processing", "pending"⟩]
  else if intent = "Meeting_Schedule" then
    [⟨"Check availability", "pending"⟩, ⟨"Book meeting room", "pending"⟩,
     ⟨"Send invitations", "pending"⟩, ⟨"Set up equipment", "pending"⟩]
  else
    [⟨"Process request", "pending"⟩, ⟨"Complete workflow", "pending"⟩]

/-- The workflow record written to the workflows table. -/
structure WorkflowItem where
  id : String
  title : String
  description : String
  domain : String
  intent : String
  entities : List (String × String)
  status : String
  userId : String
  progress : Nat
  steps : List Step
  originalText : String
  isVoice : Bool
  createdAt : String
  updatedAt : String
deriving DecidableEq

/-- The audit record written to the workflow-history table. -/
structure HistoryItem where
  id : String
  workflowId : String
  action : String
  status : String
  message : String
  timestamp : String
deriving DecidableEq

/-- The persistence store: the two DynamoDB tables, as append sequences of
put operations. -/
structure Store where
  workflows : List WorkflowItem
  history : List HistoryItem
deriving DecidableEq

/-- Per-invocation environment: the Bedrock outcome, the two generated
uuids and the clock reading. -/
structure Env where
  outcome : BedrockOutcome
  workflowId : String
  historyId : String
  now : String
deriving DecidableEq

/-- The value returned by a successful `execute_workflow`. -/
structure WorkflowMsg where
  workflowId : String
  message : String
deriving DecidableEq

/-- `execute_workflow(intent_result, original_text, is_voice)`.  The Python
code subscripts `intent_result['intent']`, `['entities']` and `['domain']`
directly: a missing key raises `KeyError` (re-raised by the function) before
either table write happens.  `confidence` is never read. -/
def execute_workflow (intent_result : IntentData) (original_text : String)
    (is_voice : Bool) (env : Env) (store : Store) :
    Except String WorkflowMsg × Store :=
  match intent_result.intent, intent_result.entities, intent_result.domain with
  | some intent, some entities, some domain =>
    let title := get_workflow_title intent entities
    let workflow_item : WorkflowItem :=
      { id := env.workflowId
        title := title
        description := get_workflow_description intent entities
        domain := domain
        intent := intent
        entities := entities
        status := "in_progress"
        userId := "default-user"
        progress := 0
        steps := get_workflow_steps intent
        originalText := original_text
        isVoice := is_voice
        createdAt := env.now
        updatedAt := env.now }
    let history_item : HistoryItem :=
      { id := env.historyId
        workflowId := env.workflowId
        action := "workflow_started"
        status := "info"
        message := "Workflow initiated: " ++ title
        timestamp := env.now }
    (Except.ok ⟨env.workflowId,
        "Workflow " ++ title ++ " has been initiated and is now in progress."⟩,
     ⟨store.workflows ++ [workflow_item], store.history ++ [history_item]⟩)
  | _, _, _ => (Except.error "KeyError", store)

/-- The HTTP-level response body of the handler. -/
structure HttpResponse where
  statusCode : Nat
  success : Bool
  error : Option String
  intent : Option IntentData
  message : Option WorkflowMsg
  workflowId : Option String
deriving DecidableEq

/-- `handler(event, context)`: empty text is rejected with a 400 before any
classification or write; an exception escaping `execute_workflow` is caught
and turned into a 500; otherwise the 200 payload combines the
classification and the workflow message. -/
def handler (env : Env) (text : String) (is_voice : Bool) (store : Store) :
    HttpResponse × Store :=
  if text = "" then
    (⟨400, false, some "Text input is required", none, none, none⟩, store)
  else
    let intent_result := detect_intent_with_bedrock env.outcome text
    match execute_workflow intent_result text is_voice env store with
    | (Except.ok msg, store') =>
      (⟨200, true, none, some intent_result, some msg, some msg.workflowId⟩, store')
    | (Except.error e, store') =>
      (⟨500, false, some ("Internal server error: " ++ e), none, none, none⟩, store')

/-- The intent attached, in the fixed priority order of the source's branch
chain, to the first keyword set matching the lowercased text; the spec's
description of the branch order, stated independently of the branch bodies. -/
def firstMatchingIntent (textLower : List Char) : String :=
  if containsAny hrKeywords textLower then "HR_Onboarding"
  else if containsAny itKeywords textLower then "IT_Ticket"
  else if containsAny financeKeywords textLower then "Finance_Expense"
  else if containsAny meetingKeywords textLower then "Meeting_Schedule"
  else "General_Query"

/-- Helper: a requested entity type other than the three implemented ones
produces no match. -/
theorem heurMatch_none_of_no_heur (text ty : String)
    (h1 : ty ≠ "employee_name") (h2 : ty ≠ "amount") (h3 : ty ≠ "role") :
    heurMatch text ty = none := by
  unfold heurMatch
  simp [h1, h2, h3]

/-- Helper: an entry contributed by one loop iteration of `extract_entities`
is keyed by the requested type of that iteration. -/
theorem heurEntry_key (text ty k v : String) (h : (k, v) ∈ heurEntry text ty) :
    k = ty := by
  unfold heurEntry at h
  cases hm : heurMatch text ty <;> rw [hm] at h
  · simp at h
  · simp at h
    exact h.1

/-- Helper: a loop iteration only contributes an entry when its requested
type is one of the three implemented heuristics. -/
theorem heurEntry_heur (text ty k v : String) (h : (k, v) ∈ heurEntry text ty) :
    ty = "employee_name" ∨ ty = "amount" ∨ ty = "role" := by
  by_contra hc
  push_neg at hc
  unfold heurEntry at h
  rw [heurMatch_none_of_no_heur text ty hc.1 hc.2.1 hc.2.2] at h
  simp at h

/-- Helper: membership in the `extract_entities` fold, generalized over the
accumulator. -/
theorem extract_foldl_mem (text : String) (types : List String) (k v : String) :
    ∀ acc : List (String × String),
      (k, v) ∈ types.foldl (fun acc ty => acc ++ heurEntry text ty) acc →
      (k, v) ∈ acc ∨ (k ∈ types ∧ (k = "employee_name" ∨ k = "amount" ∨ k = "role")) := by
  induction types with
  | nil =>
    intro acc h
    exact Or.inl h
  | cons ty rest ih =>
    intro acc h
    rcases ih (acc ++ heurEntry text ty) h with h' | h'
    · rcases List.mem_append.mp h' with h'' | h''
      · exact Or.inl h''
      · have hk := heurEntry_key text ty k v h''
        subst hk
        exact Or.inr ⟨List.mem_cons_self k rest, heurEntry_heur text k k v h''⟩
    · exact Or.inr ⟨List.mem_cons_of_mem ty h'.1, h'.2⟩

/-- C1 (corrected): on `"Pay John Smith $250.00 for travel"` with requested
types `[employee_name, amount]`, `extract_entities` returns
`{employee_name: "Pay John", amount: "$250.00"}`: the first occurrence of
two consecutive capitalized words in this text is `"Pay John"` (the verb
`"Pay"` itself matches `[A-Z][a-z]+`), not `"John Smith"`; the amount is the
first decimal-number token reformatted with a leading `$`, as claimed. -/
theorem extract_round_trip :
    extract_entities "Pay John Smith $250.00 for travel" ["employee_name", "amount"]
      = [("employee_name", "Pay John"), ("amount", "$250.00")] := by
  decide

/-- C1 counterexample: the claimed value `"John Smith"` for `employee_name`
is not what `extract_entities` returns on this text. -/
theorem extract_round_trip_counterexample :
    (extract_entities "Pay John Smith $250.00 for travel"
        ["employee_name", "amount"]).lookup "employee_name" ≠ some "John Smith" := by
  decide

/-- C2 (corrected): when the model call succeeds and its output parses, the
parsed object is returned verbatim with no schema validation; but the
workflow materializer does not tolerate a parsable object with a missing
`entities` key: it fails with a `KeyError` (surfaced as an internal error)
and performs no store write. -/
theorem parsed_verbatim_and_missing_key_fails (d : IntentData)
    (text orig : String) (v : Bool) (env : Env) (store : Store)
    (hmiss : d.entities = none) :
    detect_intent_with_bedrock (BedrockOutcome.parsed d) text = d ∧
    execute_workflow d orig v env store = (Except.error "KeyError", store) := by
  refine ⟨rfl, ?_⟩
  rcases d with ⟨i, e, c, dm⟩
  obtain rfl : e = none := hmiss
  cases i <;> cases dm <;> rfl

/-- C2 witness: a concrete parsed object missing its `entities` key. -/
theorem parsed_verbatim_and_missing_key_fails_witness :
    detect_intent_with_bedrock
        (BedrockOutcome.parsed ⟨some "HR_Onboarding", none, some (19/20), some "HR"⟩)
        "Onboard John Smith"
      = ⟨some "HR_Onboarding", none, some (19/20), some "HR"⟩ ∧
    execute_workflow ⟨some "HR_Onboarding", none, some (19/20), some "HR"⟩
        "Onboard John Smith" false
        ⟨BedrockOutcome.parsed ⟨some "HR_Onboarding", none, some (19/20), some "HR"⟩,
          "wf-1", "hist-1", "t0"⟩ ⟨[], []⟩
      = (Except.error "KeyError", ⟨[], []⟩) :=
  parsed_verbatim_and_missing_key_fails _ _ _ _ _ _ rfl

/-- C2 counterexample: on a concrete parsed object missing the `entities`
key, the whole request ends in the 500 internal-error outcome instead of a
materialized workflow, refuting "missing fields are treated as
empty/default rather than failing". -/
theorem missing_key_not_tolerated_counterexample :
    (handler ⟨BedrockOutcome.parsed ⟨some "HR_Onboarding", none, some (19/20), some "HR"⟩,
        "wf-1", "hist-1", "t0"⟩ "Onboard John Smith" false ⟨[], []⟩).1
      = ⟨500, false, some "Internal server error: KeyError", none, none, none⟩ := by
  decide

/-- C3: `fallback_intent_detection` tests the four keyword sets in the fixed
priority order HR_Onboarding, IT_Ticket, Finance_Expense, Meeting_Schedule:
for every text the returned intent is the one of the first matching set, and
in particular `"reimburse my ticket issue"` (which matches both the IT and
the Finance sets) returns `IT_Ticket`, not `Finance_Expense`. -/
theorem fallback_keyword_priority :
    (∀ text : String,
        (fallback_intent_detection text).intent
          = some (firstMatchingIntent (lowerText text.toList)))
    ∧ (fallback_intent_detection "reimburse my ticket issue").intent
        = some "IT_Ticket" := by
  refine ⟨?_, by decide⟩
  intro text
  unfold fallback_intent_detection firstMatchingIntent
  cases h1 : containsAny hrKeywords (lowerText text.data) <;>
  cases h2 : containsAny itKeywords (lowerText text.data) <;>
  cases h3 : containsAny financeKeywords (lowerText text.data) <;>
  cases h4 : containsAny meetingKeywords (lowerText text.data) <;>
    simp [h1, h2, h3, h4]

/-- C4: if the Bedrock call fails, the classification equals
`fallback_intent_detection text` exactly, and the failure is never surfaced:
on nonempty text the request still returns the 200 success outcome carrying
the fallback classification. -/
theorem classify_fallback_on_failure (text : String) (v : Bool)
    (wfId hId now : String) (store : Store) (hne : text ≠ "") :
    detect_intent_with_bedrock BedrockOutcome.failure text
      = fallback_intent_detection text
    ∧ (handler ⟨BedrockOutcome.failure, wfId, hId, now⟩ text v store).1.statusCode = 200
    ∧ (handler ⟨BedrockOutcome.failure, wfId, hId, now⟩ text v store).1.success = true
    ∧ (handler ⟨BedrockOutcome.failure, wfId, hId, now⟩ text v store).1.intent
        = some (fallback_intent_detection text) := by
  refine ⟨rfl, ?_, ?_, ?_⟩ <;>
  · unfold handler
    rw [if_neg hne]
    cases h1 : containsAny hrKeywords (lowerText text.data) <;>
    cases h2 : containsAny itKeywords (lowerText text.data) <;>
    cases h3 : containsAny financeKeywords (lowerText text.data) <;>
    cases h4 : containsAny meetingKeywords (lowerText text.data) <;>
      simp [detect_intent_with_bedrock, fallback_intent_detection, execute_workflow,
        h1, h2, h3, h4]

/-- C4 witness: a concrete nonempty text with a failing model call. -/
theorem classify_fallback_on_failure_witness :
    detect_intent_with_bedrock BedrockOutcome.failure "hello"
      = fallback_intent_detection "hello"
    ∧ (handler ⟨BedrockOutcome.failure, "w1", "h1", "t0"⟩ "hello" false ⟨[], []⟩).1.statusCode = 200
    ∧ (handler ⟨BedrockOutcome.failure, "w1", "h1", "t0"⟩ "hello" false ⟨[], []⟩).1.success = true
    ∧ (handler ⟨BedrockOutcome.failure, "w1", "h1", "t0"⟩ "hello" false ⟨[], []⟩).1.intent
        = some (fallback_intent_detection "hello") :=
  classify_fallback_on_failure "hello" false "w1" "h1" "t0" ⟨[], []⟩ (by decide)

/-- C5: on empty text the handler returns the bad-request outcome
`{success: false, error: "Text input is required"}` (status 400) and the
store is returned unchanged: no WorkflowRecord and no HistoryEntry is
written. -/
theorem handler_empty_text_validation (env : Env) (store : Store) :
    handler env "" false store
      = (⟨400, false, some "Text input is required", none, none, none⟩, store) :=
  rfl

/-- C6: every successful `execute_workflow` call appends exactly one
workflow record (status `in_progress`, progress 0) and exactly one history
entry (action `workflow_started`, status `info`) whose `workflowId` equals
the workflow record's `id`. -/
theorem materialize_linked_write (d : IntentData) (orig : String) (v : Bool)
    (env : Env) (store : Store) (msg : WorkflowMsg) (store' : Store)
    (h : execute_workflow d orig v env store = (Except.ok msg, store')) :
    ∃ w hi,
      store'.workflows = store.workflows ++ [w]
      ∧ store'.history = store.history ++ [hi]
      ∧ w.status = "in_progress" ∧ w.progress = 0
      ∧ hi.action = "workflow_started" ∧ hi.status = "info"
      ∧ hi.workflowId = w.id := by
  rcases d with ⟨i, e, c, dm⟩
  cases i <;> cases e <;> cases dm <;>
    simp [execute_workflow, Prod.mk.injEq] at h
  obtain ⟨hmsg, hstore⟩ := h
  subst hstore
  exact ⟨_, _, rfl, rfl, rfl, rfl, rfl, rfl, rfl⟩

/-- C6 witness: a concrete successful materialization. -/
theorem materialize_linked_write_witness :
    ∃ w hi,
      (Store.mk
        [⟨"w1", "Workflow - General_Query", "Processing workflow request.",
          "General", "General_Query", [], "in_progress", "default-user", 0,
          [⟨"Process request", "pending"⟩, ⟨"Complete workflow", "pending"⟩],
          "hello", false, "t0", "t0"⟩]
        [⟨"h1", "w1", "workflow_started", "info",
          "Workflow initiated: Workflow - General_Query", "t0"⟩]).workflows
        = (Store.mk [] []).workflows ++ [w]
      ∧ (Store.mk
        [⟨"w1", "Workflow - General_Query", "Processing workflow request.",
          "General", "General_Query", [], "in_progress", "default-user", 0,
          [⟨"Process request", "pending"⟩, ⟨"Complete workflow", "pending"⟩],
          "hello", false, "t0", "t0"⟩]
        [⟨"h1", "w1", "workflow_started", "info",
          "Workflow initiated: Workflow - General_Query", "t0"⟩]).history
        = (Store.mk [] []).history ++ [hi]
      ∧ w.status = "in_progress" ∧ w.progress = 0
      ∧ hi.action = "workflow_started" ∧ hi.status = "info"
      ∧ hi.workflowId = w.id :=
  materialize_linked_write
    ⟨some "General_Query", some [], some (1/2), some "General"⟩ "hello" false
    ⟨BedrockOutcome.failure, "w1", "h1", "t0"⟩ ⟨[], []⟩
    ⟨"w1", "Workflow Workflow - General_Query has been initiated and is now in progress."⟩
    (Store.mk
      [⟨"w1", "Workflow - General_Query", "Processing workflow request.",
        "General", "General_Query", [], "in_progress", "default-user", 0,
        [⟨"Process request", "pending"⟩, ⟨"Complete workflow", "pending"⟩],
        "hello", false, "t0", "t0"⟩]
      [⟨"h1", "w1", "workflow_started", "info",
        "Workflow initiated: Workflow - General_Query", "t0"⟩])
    rfl

/-- C7: confidence never gates control flow: changing only the confidence
value of a classification result leaves the materialized workflow record,
the history entry and the returned message unchanged (given the same
generated ids and timestamps). -/
theorem confidence_never_gates (d : IntentData) (c : Option ℚ) (orig : String)
    (v : Bool) (env : Env) (store : Store) :
    execute_workflow { d with confidence := c } orig v env store
      = execute_workflow d orig v env store := by
  rcases d with ⟨i, e, c0, dm⟩
  rfl

/-- C8: for any intent string outside the four bespoke templates, the title
is `"Workflow - <intent>"`, the description is
`"Processing workflow request."`, and the steps are the generic two-step
default. -/
theorem template_fallback (intent : String) (entities : List (String × String))
    (h1 : intent ≠ "HR_Onboarding") (h2 : intent ≠ "IT_Ticket")
    (h3 : intent ≠ "Finance_Expense") (h4 : intent ≠ "Meeting_Schedule") :
    get_workflow_title intent entities = "Workflow - " ++ intent
    ∧ get_workflow_description intent entities = "Processing workflow request."
    ∧ get_workflow_steps intent
        = [⟨"Process request", "pending"⟩, ⟨"Complete workflow", "pending"⟩] := by
  unfold get_workflow_title get_workflow_description get_workflow_steps
  simp [h1, h2, h3, h4]

/-- C8 witness: the `General_Query` intent has no bespoke template. -/
theorem template_fallback_witness :
    get_workflow_title "General_Query" [] = "Workflow - " ++ "General_Query"
    ∧ get_workflow_description "General_Query" [] = "Processing workflow request."
    ∧ get_workflow_steps "General_Query"
        = [⟨"Process request", "pending"⟩, ⟨"Complete workflow", "pending"⟩] :=
  template_fallback "General_Query" [] (by decide) (by decide) (by decide) (by decide)

/-- C9: `extract_entities` produces entries only for requested types that
have a heuristic (`employee_name`, `amount`, `role`) and that match; in
particular the requested type lists of the IT_Ticket and Meeting_Schedule
fallback branches always yield an empty (never absent) entities mapping. -/
theorem entity_types_without_heuristic_absent :
    (∀ (text : String) (types : List String) (k v : String),
        (k, v) ∈ extract_entities text types →
        k ∈ types ∧ (k = "employee_name" ∨ k = "amount" ∨ k = "role"))
    ∧ (∀ text : String,
        extract_entities text ["issue_type", "priority", "description"] = [])
    ∧ (∀ text : String,
        extract_entities text ["date", "time", "attendees", "subject"] = []) := by
  refine ⟨?_, fun text => rfl, fun text => rfl⟩
  intro text types k v h
  rcases extract_foldl_mem text types k v [] h with h' | h'
  · simp at h'
  · exact h'

/-- C9 witness: a concrete produced entry has a requested, implemented key. -/
theorem entity_types_without_heuristic_absent_witness :
    "employee_name" ∈ ["employee_name"]
      ∧ ("employee_name" = "employee_name" ∨ "employee_name" = "amount"
          ∨ "employee_name" = "role") :=
  entity_types_without_heuristic_absent.1 "John Smith" ["employee_name"]
    "employee_name" "John Smith" (by decide)

/-- C10: keyword matching is by raw substring of the lowercased text, not by
whole word: any text whose lowercased form contains `"join"` (e.g. inside
`"joint"` or `"rejoined"`) classifies as HR_Onboarding, and any text
containing `"error"` (e.g. inside `"errors"` or `"terrorist"`) with no
HR keyword classifies as IT_Ticket. -/
theorem fallback_substring_matching :
    (∀ text : String, hasSub "join".toList (lowerText text.toList) = true →
        (fallback_intent_detection text).intent = some "HR_Onboarding")
    ∧ (∀ text : String, hasSub "error".toList (lowerText text.toList) = true →
        containsAny hrKeywords (lowerText text.toList) = false →
        (fallback_intent_detection text).intent = some "IT_Ticket")
    ∧ (fallback_intent_detection "They rejoined the team").intent
        = some "HR_Onboarding"
    ∧ (fallback_intent_detection "Seeing errors in the console").intent
        = some "IT_Ticket" := by
  refine ⟨?_, ?_, by decide, by decide⟩
  · intro text h
    have hhr : containsAny hrKeywords (lowerText text.data) = true :=
      List.any_eq_true.mpr ⟨"join", by decide, h⟩
    simp [fallback_intent_detection, hhr]
  · intro text h hhr
    have hhr' : containsAny hrKeywords (lowerText text.data) = false := hhr
    have hit : containsAny itKeywords (lowerText text.data) = true :=
      List.any_eq_true.mpr ⟨"error", by decide, h⟩
    simp [fallback_intent_detection, hhr', hit]

/-- C10 witness: `"joint"` contains the substring `"join"`. -/
theorem fallback_substring_matching_witness :
    (fallback_intent_detection "The joint budget").intent = some "HR_Onboarding" :=
  fallback_substring_matching.1 "The joint budget" (by decide)

end GenAssist
